import Mathlib

/-!
# Gateway service (`src/index.js`): handlers over an abstract backend

The seven Express route handlers of `src/index.js` are embedded as Lean
functions.  The Supabase client (Auth Provider and Record Store) is the
environment: it is a parameter `Backend σ`, a transition function on an
arbitrary backend state `σ` that answers every outbound call either with a
resolved JavaScript value or with a thrown exception.  A handler run yields
the handler's outcome (the response it sent, or the exception that left it),
the outbound calls it issued in order, and the backend state it left behind.
What the client of an endpoint receives when an exception leaves the handler
is decided by the web framework, a second parameter (`Framework`).
-/

namespace Server

/-! ## JavaScript values -/

/-- JSON-like JavaScript values: what `bodyParser.json()` puts in `req.body`
(`undefined` when no body was parsed) and what the Supabase client resolves
to.  Numbers are kept as integers; the handlers only test them for zero. -/
inductive JsVal where
  | undefined
  | null
  | bool (b : Bool)
  | num (n : Int)
  | str (s : String)
  | arr (items : List JsVal)
  | obj (fields : List (String × JsVal))

instance : Inhabited JsVal := ⟨JsVal.undefined⟩

/-- JavaScript truthiness (`if (v)`, `!v`): `undefined`, `null`, `false`, `0`
and `""` are falsy, every other value (all arrays and objects) is truthy. -/
def truthy : JsVal → Bool
  | .undefined => false
  | .null => false
  | .bool b => b
  | .num n => decide (n ≠ 0)
  | .str s => decide (s ≠ "")
  | .arr _ => true
  | .obj _ => true

/-- The values on which a property read or a destructuring throws. -/
def isNullish : JsVal → Bool
  | .undefined => true
  | .null => true
  | _ => false

/-- Property read `v.k` on a value that is not nullish.  Only the keys read by
the handlers are looked up (`firstname`, `lastname`, `email`, `password`,
`token_code`, `data`, `error`, `user`, `session`, `id`, `message`); none of
them is a built-in property of an array or a primitive, so those read as
`undefined`. -/
def getProp (v : JsVal) (k : String) : JsVal :=
  match v with
  | .obj fields => (fields.lookup k).getD .undefined
  | _ => .undefined

/-- The exception value of a failed property read or destructuring. -/
def typeError : JsVal := .obj [("name", .str "TypeError")]

/-! ## Requests, responses, backend -/

/-- Route parameters: Express always supplies `req.params.id` as a string on
the `/profile/:id` routes. -/
structure Params where
  id : String

/-- What a handler reads from `req`. -/
structure Request where
  body : JsVal
  params : Params

/-- How a handler run ends: `res.status(status).json(body)` was called (status
200 when `res.json` is called directly), or an exception left the handler.
The body is the value handed to `res.json`; bodies are JSON-like values, on
which `res.json` does not throw. -/
inductive Outcome where
  | responded (status : Nat) (body : JsVal)
  | escaped (exn : JsVal)

/-- The outbound calls of `src/index.js` on the Supabase client. -/
inductive BackendCall where
  | signUp (email password : JsVal)
  | signInWithPassword (email password : JsVal)
  | insert (table : String) (rows : JsVal)
  | selectSingle (table : String) (columns : String) (column : String) (value : String)

/-- An awaited backend promise either resolves to a value or rejects. -/
inductive Completion where
  | returned (result : JsVal)
  | threw (exn : JsVal)

/-- The external collaborator: any state type and any transition function. -/
structure Backend (σ : Type) where
  perform : BackendCall → σ → Completion × σ

/-- A finished handler run. -/
structure Run (σ : Type) where
  outcome : Outcome
  calls : List BackendCall
  state : σ

/-- The web framework around the handlers, as far as the handlers depend on
it: what it does with an exception that leaves an `async` handler (a rejected
handler promise).  It answers with a status, or sends nothing. -/
structure Framework where
  onEscape : JsVal → Option Nat

/-- The status the client of an endpoint receives: the status of the response
the handler sent, or the framework's answer to the exception that left it. -/
def endpointStatus (F : Framework) : Outcome → Option Nat
  | .responded st _ => some st
  | .escaped exn => F.onEscape exn

/-- Express 5 passes a rejected handler promise to its default error handler,
which answers with the error's `status`, else its `statusCode`, when that is a
number from 400 to 599, and with 500 otherwise. -/
def express5 : Framework :=
  ⟨fun exn =>
    match getProp exn "status", getProp exn "statusCode" with
    | .num n, .num m =>
      if 400 ≤ n ∧ n < 600 then some n.toNat
      else if 400 ≤ m ∧ m < 600 then some m.toNat else some 500
    | .num n, _ => if 400 ≤ n ∧ n < 600 then some n.toNat else some 500
    | _, .num m => if 400 ≤ m ∧ m < 600 then some m.toNat else some 500
    | _, _ => some 500⟩

/-- Express 4 does not observe the promise an `async` handler returns: when
the handler rejects, nothing is sent. -/
def express4 : Framework := ⟨fun _ => none⟩

/-! ## Handlers -/

/-- Handler `app.get("/")`, lines 20-22. -/
def root (_req : Request) : Outcome :=
  .responded 200 (.obj [("message", .str "API is running")])

/-- Handler `app.post("/api/customers/register")`, lines 25-61.  The destructuring of
`req.body` (line 26) and the presence check (lines 28-30) come before the
`try`; everything from the sign-up on is inside it, and the `catch` answers
500. -/
def customersRegister {σ : Type} (B : Backend σ) (req : Request) (s : σ) : Run σ :=
  if isNullish req.body then ⟨.escaped typeError, [], s⟩ else
  let firstname := getProp req.body "firstname"
  let lastname := getProp req.body "lastname"
  let email := getProp req.body "email"
  let password := getProp req.body "password"
  if !truthy firstname || !truthy lastname || !truthy email || !truthy password then
    ⟨.responded 400 (.obj [("error", .str "All fields are required.")]), [], s⟩
  else
    let caught : JsVal := .obj [("error", .str "Internal server error")]
    let c1 := BackendCall.signUp email password
    match B.perform c1 s with
    | (.threw _, s1) => ⟨.responded 500 caught, [c1], s1⟩
    | (.returned r, s1) =>
      if isNullish r then ⟨.responded 500 caught, [c1], s1⟩ else
      let data := getProp r "data"
      let error := getProp r "error"
      if truthy error then
        ⟨.responded 400 (.obj [("error", getProp error "message")]), [c1], s1⟩
      else if isNullish data then ⟨.responded 500 caught, [c1], s1⟩
      else if isNullish (getProp data "user") then ⟨.responded 500 caught, [c1], s1⟩
      else
        let c2 := BackendCall.insert "user_register"
          (.arr [.obj [("user_id", getProp (getProp data "user") "id"),
                       ("firstname", firstname), ("lastname", lastname), ("email", email)]])
        match B.perform c2 s1 with
        | (.threw _, s2) => ⟨.responded 500 caught, [c1, c2], s2⟩
        | (.returned r2, s2) =>
          if isNullish r2 then ⟨.responded 500 caught, [c1, c2], s2⟩ else
          let insertError := getProp r2 "error"
          if truthy insertError then
            ⟨.responded 400 (.obj [("error", getProp insertError "message")]), [c1, c2], s2⟩
          else
            ⟨.responded 200 (.obj [("success", .bool true), ("user", getProp data "user")]),
              [c1, c2], s2⟩

/-- Handler `app.post("/api/customers/login")`, lines 64-97. -/
def customersLogin {σ : Type} (B : Backend σ) (req : Request) (s : σ) : Run σ :=
  if isNullish req.body then ⟨.escaped typeError, [], s⟩ else
  let email := getProp req.body "email"
  let password := getProp req.body "password"
  if !truthy email || !truthy password then
    ⟨.responded 400 (.obj [("error", .str "Email and password are required")]), [], s⟩
  else
    let caught : JsVal :=
      .obj [("success", .bool false), ("error", .str "Internal server error")]
    let c1 := BackendCall.signInWithPassword email password
    match B.perform c1 s with
    | (.threw _, s1) => ⟨.responded 500 caught, [c1], s1⟩
    | (.returned r, s1) =>
      if isNullish r then ⟨.responded 500 caught, [c1], s1⟩ else
      let data := getProp r "data"
      let error := getProp r "error"
      if truthy error then
        ⟨.responded 401
          (.obj [("success", .bool false), ("error", .str "Invalid email or password")]),
          [c1], s1⟩
      else if isNullish data then ⟨.responded 500 caught, [c1], s1⟩
      else
        ⟨.responded 200 (.obj [("success", .bool true), ("user", getProp data "user"),
            ("session", getProp data "session")]), [c1], s1⟩

/-- Handler `app.get("/api/customers/profile/:id")`, lines 101-119. -/
def customersProfile {σ : Type} (B : Backend σ) (req : Request) (s : σ) : Run σ :=
  let id := req.params.id
  let caught : JsVal := .obj [("error", .str "Server error")]
  let c1 := BackendCall.selectSingle "user_register" "firstname, lastname, email" "user_id" id
  match B.perform c1 s with
  | (.threw _, s1) => ⟨.responded 500 caught, [c1], s1⟩
  | (.returned r, s1) =>
    if isNullish r then ⟨.responded 500 caught, [c1], s1⟩ else
    let data := getProp r "data"
    let error := getProp r "error"
    if truthy error then
      ⟨.responded 404 (.obj [("error", .str "User not found")]), [c1], s1⟩
    else
      ⟨.responded 200 (.obj [("profile", data)]), [c1], s1⟩

/-- Handler `app.post("/api/agent/register")`, lines 122-158. -/
def agentRegister {σ : Type} (B : Backend σ) (req : Request) (s : σ) : Run σ :=
  if isNullish req.body then ⟨.escaped typeError, [], s⟩ else
  let firstname := getProp req.body "firstname"
  let lastname := getProp req.body "lastname"
  let email := getProp req.body "email"
  let password := getProp req.body "password"
  let token_code := getProp req.body "token_code"
  if !truthy firstname || !truthy lastname || !truthy email || !truthy password
      || !truthy token_code then
    ⟨.responded 400 (.obj [("error", .str "All fields are required.")]), [], s⟩
  else
    let caught : JsVal := .obj [("error", .str "Internal server error")]
    let c1 := BackendCall.signUp email password
    match B.perform c1 s with
    | (.threw _, s1) => ⟨.responded 500 caught, [c1], s1⟩
    | (.returned r, s1) =>
      if isNullish r then ⟨.responded 500 caught, [c1], s1⟩ else
      let data := getProp r "data"
      let error := getProp r "error"
      if truthy error then
        ⟨.responded 400 (.obj [("error", getProp error "message")]), [c1], s1⟩
      else if isNullish data then ⟨.responded 500 caught, [c1], s1⟩
      else if isNullish (getProp data "user") then ⟨.responded 500 caught, [c1], s1⟩
      else
        let c2 := BackendCall.insert "agent_register"
          (.arr [.obj [("user_id", getProp (getProp data "user") "id"),
                       ("firstname", firstname), ("lastname", lastname), ("email", email),
                       ("token_code", token_code)]])
        match B.perform c2 s1 with
        | (.threw _, s2) => ⟨.responded 500 caught, [c1, c2], s2⟩
        | (.returned r2, s2) =>
          if isNullish r2 then ⟨.responded 500 caught, [c1, c2], s2⟩ else
          let insertError := getProp r2 "error"
          if truthy insertError then
            ⟨.responded 400 (.obj [("error", getProp insertError "message")]), [c1, c2], s2⟩
          else
            ⟨.responded 200 (.obj [("success", .bool true), ("user", getProp data "user")]),
              [c1, c2], s2⟩

/-- Handler `app.post("/api/agent/login")`, lines 161-184. -/
def agentLogin {σ : Type} (B : Backend σ) (req : Request) (s : σ) : Run σ :=
  if isNullish req.body then ⟨.escaped typeError, [], s⟩ else
  let email := getProp req.body "email"
  let password := getProp req.body "password"
  if !truthy email || !truthy password then
    ⟨.responded 400 (.obj [("error", .str "Email and password are required")]), [], s⟩
  else
    let caught : JsVal := .obj [("error", .str "Internal server error")]
    let c1 := BackendCall.signInWithPassword email password
    match B.perform c1 s with
    | (.threw _, s1) => ⟨.responded 500 caught, [c1], s1⟩
    | (.returned r, s1) =>
      if isNullish r then ⟨.responded 500 caught, [c1], s1⟩ else
      let data := getProp r "data"
      let error := getProp r "error"
      if truthy error then
        ⟨.responded 401 (.obj [("error", .str "Invalid email or password")]), [c1], s1⟩
      else if isNullish data then ⟨.responded 500 caught, [c1], s1⟩
      else
        ⟨.responded 200 (.obj [("success", .bool true), ("user", getProp data "user"),
            ("session", getProp data "session")]), [c1], s1⟩

/-- Handler `app.get("/api/agent/profile/:id")`, lines 187-203. -/
def agentProfile {σ : Type} (B : Backend σ) (req : Request) (s : σ) : Run σ :=
  let id := req.params.id
  let caught : JsVal := .obj [("error", .str "Server error")]
  let c1 := BackendCall.selectSingle "agent_register"
    "firstname, lastname, email, phone, image" "user_id" id
  match B.perform c1 s with
  | (.threw _, s1) => ⟨.responded 500 caught, [c1], s1⟩
  | (.returned r, s1) =>
    if isNullish r then ⟨.responded 500 caught, [c1], s1⟩ else
    let data := getProp r "data"
    let error := getProp r "error"
    if truthy error then
      ⟨.responded 404 (.obj [("error", .str "Agent not found")]), [c1], s1⟩
    else
      ⟨.responded 200 (.obj [("profile", data)]), [c1], s1⟩

/-! ## Contracts of the backend, as seen from the handlers -/

/-- A request body the customer registration accepts: destructurable, with the
four required fields truthy. -/
def ValidCustomer (body : JsVal) : Prop :=
  isNullish body = false ∧ truthy (getProp body "firstname") = true ∧
  truthy (getProp body "lastname") = true ∧ truthy (getProp body "email") = true ∧
  truthy (getProp body "password") = true

/-- A request body the agent registration accepts: the customer fields plus a
truthy `token_code`. -/
def ValidAgent (body : JsVal) : Prop :=
  ValidCustomer body ∧ truthy (getProp body "token_code") = true

/-- A request body a login handler accepts. -/
def ValidLogin (body : JsVal) : Prop :=
  isNullish body = false ∧ truthy (getProp body "email") = true ∧
  truthy (getProp body "password") = true

/-- The backend call `c` in state `s` resolves to a result object `r` (a value
that can be destructured), leaving state `s1`. -/
def Resolves {σ : Type} (B : Backend σ) (c : BackendCall) (s : σ) (r : JsVal) (s1 : σ) : Prop :=
  B.perform c s = (.returned r, s1) ∧ isNullish r = false

/-- The call resolves and reports the error `e` (`error` is truthy). -/
def ReturnsError {σ : Type} (B : Backend σ) (c : BackendCall) (s : σ) (e : JsVal) (s1 : σ) : Prop :=
  ∃ r, Resolves B c s r s1 ∧ getProp r "error" = e ∧ truthy e = true

/-- The call resolves with no error (`error` is falsy) and with `data = d`. -/
def ReturnsData {σ : Type} (B : Backend σ) (c : BackendCall) (s : σ) (d : JsVal) (s1 : σ) : Prop :=
  ∃ r, Resolves B c s r s1 ∧ truthy (getProp r "error") = false ∧ getProp r "data" = d

/-- Sign-up succeeds with identity `u`: no error, and `data.user` is `u`, an
object or other value on which `.id` can be read. -/
def SignUpSucceeds {σ : Type} (B : Backend σ) (email password : JsVal) (s : σ) (u : JsVal)
    (s1 : σ) : Prop :=
  ∃ d, ReturnsData B (.signUp email password) s d s1 ∧ isNullish d = false ∧
    getProp d "user" = u ∧ isNullish u = false

/-- The row the customer registration inserts for identity `u` (lines 45-50). -/
def customerRow (body u : JsVal) : JsVal :=
  .obj [("user_id", getProp u "id"), ("firstname", getProp body "firstname"),
        ("lastname", getProp body "lastname"), ("email", getProp body "email")]

/-- The row the agent registration inserts for identity `u` (lines 143-149). -/
def agentRow (body u : JsVal) : JsVal :=
  .obj [("user_id", getProp u "id"), ("firstname", getProp body "firstname"),
        ("lastname", getProp body "lastname"), ("email", getProp body "email"),
        ("token_code", getProp body "token_code")]

/-- Column names of a PostgREST select list: split on commas, blanks dropped. -/
def splitColumns : List Char → List Char → List String
  | acc, [] => [String.mk acc.reverse]
  | acc, c :: cs =>
    if c = ',' then String.mk acc.reverse :: splitColumns [] cs
    else if c = ' ' then splitColumns acc cs
    else splitColumns (c :: acc) cs

/-- The columns named by a select list such as `"firstname, lastname, email"`. -/
def columnsOf (columns : String) : List String := splitColumns [] columns.toList

/-- Record Store contract the round trip relies on: a row whose insert was
acknowledged without error is the single row a following `.eq("user_id", uid)
.single()` on the same table resolves to, with every selected column the row
holds unchanged. -/
def InsertThenSelect {σ : Type} (B : Backend σ) : Prop :=
  ∀ (table columns uid : String) (row : JsVal) (s s1 : σ),
    (∃ d, ReturnsData B (.insert table (.arr [row])) s d s1) →
    getProp row "user_id" = .str uid →
    ∃ d s2, ReturnsData B (.selectSingle table columns "user_id" uid) s1 d s2 ∧
      ∀ c ∈ columnsOf columns, getProp row c ≠ .undefined → getProp d c = getProp row c

/-! ## A reference in-memory backend -/

/-- An identity held by the in-memory Auth Provider. -/
structure Identity where
  id : String
  email : String
  password : String

/-- State of the in-memory backend: the identities, the two profile tables, and
an outage message while the Record Store is unavailable. -/
structure MemState where
  identities : List Identity
  user_register : List JsVal
  agent_register : List JsVal
  outage : Option String

/-- The Supabase result shape on failure. -/
def failure (data : JsVal) (message : String) : JsVal :=
  .obj [("data", data), ("error", .obj [("message", .str message)])]

/-- The Supabase result shape on success. -/
def success (data : JsVal) : JsVal :=
  .obj [("data", data), ("error", .null)]

/-- The identity as the Auth Provider returns it. -/
def Identity.toJs (u : Identity) : JsVal :=
  .obj [("id", .str u.id), ("email", .str u.email)]

/-- Whether a row's `user_id` is the string `k`. -/
def hasKey (k : String) (row : JsVal) : Bool :=
  match getProp row "user_id" with
  | .str k2 => decide (k2 = k)
  | _ => false

/-- The selected columns of a row; a column the row does not hold reads null. -/
def project (row : JsVal) (cols : List String) : JsVal :=
  .obj (cols.map fun c =>
    (c, match getProp row c with
        | .undefined => .null
        | v => v))

/-- The rows of a table, if the table exists. -/
def MemState.table (st : MemState) (t : String) : Option (List JsVal) :=
  if t = "user_register" then some st.user_register
  else if t = "agent_register" then some st.agent_register
  else none

/-- Replace the rows of an existing table. -/
def MemState.setTable (st : MemState) (t : String) (rows : List JsVal) : MemState :=
  if t = "user_register" then { st with user_register := rows }
  else if t = "agent_register" then { st with agent_register := rows }
  else st

/-- The in-memory backend.  Sign-up rejects short passwords and known emails
and otherwise creates an identity; sign-in checks email and password; insert
appends one row unless the store is out or the `user_id` is taken; the
single-row select resolves to the one matching row or to an error. -/
def memPerform : BackendCall → MemState → Completion × MemState
  | .signUp (.str e) (.str p), st =>
    if p.length < 6 then
      (.returned (failure (.obj [("user", .null), ("session", .null)])
        "Password should be at least 6 characters."), st)
    else if st.identities.any (fun u => decide (u.email = e)) then
      (.returned (failure (.obj [("user", .null), ("session", .null)])
        "User already registered"), st)
    else
      let u : Identity := ⟨"id-" ++ e, e, p⟩
      (.returned (success (.obj [("user", u.toJs), ("session", .null)])),
        { st with identities := st.identities ++ [u] })
  | .signUp _ _, st =>
    (.returned (failure (.obj [("user", .null), ("session", .null)])
      "Anonymous sign-ins are disabled"), st)
  | .signInWithPassword (.str e) (.str p), st =>
    match st.identities.find? (fun u => decide (u.email = e) && decide (u.password = p)) with
    | some u =>
      (.returned (success (.obj [("user", u.toJs),
        ("session", .obj [("access_token", .str ("token-" ++ u.id))])])), st)
    | none =>
      (.returned (failure (.obj [("user", .null), ("session", .null)])
        "Invalid login credentials"), st)
  | .signInWithPassword _ _, st =>
    (.returned (failure (.obj [("user", .null), ("session", .null)])
      "Invalid login credentials"), st)
  | .insert t (.arr [row]), st =>
    match st.outage with
    | some m => (.returned (failure .null m), st)
    | none =>
      match st.table t, getProp row "user_id" with
      | some rows, .str k =>
        if rows.any (hasKey k) then
          (.returned (failure .null "duplicate key value violates unique constraint"), st)
        else (.returned (success .null), st.setTable t (rows ++ [row]))
      | some _, _ => (.returned (failure .null "invalid input syntax for type uuid"), st)
      | none, _ => (.returned (failure .null "relation does not exist"), st)
  | .insert _ _, st => (.returned (failure .null "invalid rows"), st)
  | .selectSingle t columns column value, st =>
    match st.outage with
    | some m => (.returned (failure .null m), st)
    | none =>
      if column = "user_id" then
        match st.table t with
        | some rows =>
          match rows.filter (hasKey value) with
          | [row] => (.returned (success (project row (columnsOf columns))), st)
          | _ => (.returned
              (failure .null "JSON object requested, multiple (or no) rows returned"), st)
        | none => (.returned (failure .null "relation does not exist"), st)
      else (.returned (failure .null "column does not exist"), st)

/-- The in-memory backend as a `Backend`. -/
def memBackend : Backend MemState := ⟨memPerform⟩

/-- A backend that resolves every call to the same value and keeps no state. -/
def constBackend (r : JsVal) : Backend Unit := ⟨fun _ _ => (.returned r, ())⟩

/-- The empty in-memory backend. -/
def emptyState : MemState := ⟨[], [], [], none⟩

/-- The empty in-memory backend with the Record Store out. -/
def outageState : MemState := ⟨[], [], [], some "store unavailable"⟩

/-- A complete customer registration body. -/
def adaBody : JsVal :=
  .obj [("firstname", .str "Ada"), ("lastname", .str "Byron"),
        ("email", .str "ada@example.com"), ("password", .str "secret1")]

/-- A complete agent registration body. -/
def agentBody : JsVal :=
  .obj [("firstname", .str "Ada"), ("lastname", .str "Byron"),
        ("email", .str "ada@example.com"), ("password", .str "secret1"),
        ("token_code", .str "T-1")]

/-- A registration body with an empty `lastname`. -/
def emptyLastnameBody : JsVal :=
  .obj [("firstname", .str "Ada"), ("lastname", .str ""),
        ("email", .str "ada@example.com"), ("password", .str "secret1"),
        ("token_code", .str "T-1")]

/-- A login body. -/
def loginBody : JsVal :=
  .obj [("email", .str "ada@example.com"), ("password", .str "secret1")]

/-- The identity the in-memory sign-up creates for `adaBody`. -/
def adaUser : JsVal :=
  .obj [("id", .str "id-ada@example.com"), ("email", .str "ada@example.com")]

/-! ## Theorems -/

/-- The presence check on a parsed body (POST /api/customers/register,
POST /api/agent/register): when `req.body` is neither null nor undefined and
lacks a required field, or holds a falsy value for it (missing, empty string,
null, false, 0), the handler answers 400 with the body
`error: "All fields are required."`, issues no backend call and leaves the
backend state untouched. -/
theorem register_missing_field_rejected {σ : Type} (B : Backend σ) (req : Request) (s : σ)
    (hbody : isNullish req.body = false) :
    ((truthy (getProp req.body "firstname") = false ∨
      truthy (getProp req.body "lastname") = false ∨
      truthy (getProp req.body "email") = false ∨
      truthy (getProp req.body "password") = false) →
      (customersRegister B req s).outcome
          = .responded 400 (.obj [("error", .str "All fields are required.")]) ∧
      (customersRegister B req s).calls = [] ∧
      (customersRegister B req s).state = s) ∧
    ((truthy (getProp req.body "firstname") = false ∨
      truthy (getProp req.body "lastname") = false ∨
      truthy (getProp req.body "email") = false ∨
      truthy (getProp req.body "password") = false ∨
      truthy (getProp req.body "token_code") = false) →
      (agentRegister B req s).outcome
          = .responded 400 (.obj [("error", .str "All fields are required.")]) ∧
      (agentRegister B req s).calls = [] ∧
      (agentRegister B req s).state = s) := by
  constructor
  · intro h
    have hc : (!truthy (getProp req.body "firstname") || !truthy (getProp req.body "lastname")
        || !truthy (getProp req.body "email") || !truthy (getProp req.body "password")) = true := by
      rcases h with h | h | h | h <;> simp [h]
    simp [customersRegister, hbody, hc]
  · intro h
    have hc : (!truthy (getProp req.body "firstname") || !truthy (getProp req.body "lastname")
        || !truthy (getProp req.body "email") || !truthy (getProp req.body "password")
        || !truthy (getProp req.body "token_code")) = true := by
      rcases h with h | h | h | h | h <;> simp [h]
    simp [agentRegister, hbody, hc]

/-- The presence check at a concrete input: a body with an empty `lastname` is
rejected by both registration handlers on the in-memory backend without
touching it. -/
theorem register_missing_field_rejected_witness :
    isNullish emptyLastnameBody = false ∧
    truthy (getProp emptyLastnameBody "lastname") = false ∧
    ((customersRegister memBackend ⟨emptyLastnameBody, ⟨""⟩⟩ emptyState).outcome
        = .responded 400 (.obj [("error", .str "All fields are required.")]) ∧
      (customersRegister memBackend ⟨emptyLastnameBody, ⟨""⟩⟩ emptyState).calls = [] ∧
      (customersRegister memBackend ⟨emptyLastnameBody, ⟨""⟩⟩ emptyState).state = emptyState) ∧
    ((agentRegister memBackend ⟨emptyLastnameBody, ⟨""⟩⟩ emptyState).outcome
        = .responded 400 (.obj [("error", .str "All fields are required.")]) ∧
      (agentRegister memBackend ⟨emptyLastnameBody, ⟨""⟩⟩ emptyState).calls = [] ∧
      (agentRegister memBackend ⟨emptyLastnameBody, ⟨""⟩⟩ emptyState).state = emptyState) :=
  ⟨rfl, rfl,
    (register_missing_field_rejected memBackend ⟨emptyLastnameBody, ⟨""⟩⟩ emptyState rfl).1
      (Or.inr (Or.inl rfl)),
    (register_missing_field_rejected memBackend ⟨emptyLastnameBody, ⟨""⟩⟩ emptyState rfl).2
      (Or.inr (Or.inl rfl))⟩

/-- The customer login run when the sign-in resolves with an error. -/
theorem customersLogin_of_error {σ : Type} (B : Backend σ) (req : Request) (s s1 : σ)
    (e : JsVal) (hv : ValidLogin req.body)
    (herr : ReturnsError B
      (.signInWithPassword (getProp req.body "email") (getProp req.body "password")) s e s1) :
    customersLogin B req s = ⟨.responded 401
      (.obj [("success", .bool false), ("error", .str "Invalid email or password")]),
      [.signInWithPassword (getProp req.body "email") (getProp req.body "password")], s1⟩ := by
  obtain ⟨hb, he, hp⟩ := hv
  obtain ⟨r, ⟨hr, hn⟩, rfl, ht⟩ := herr
  simp [customersLogin, hb, he, hp, hr, hn, ht]

/-- The agent login run when the sign-in resolves with an error. -/
theorem agentLogin_of_error {σ : Type} (B : Backend σ) (req : Request) (s s1 : σ)
    (e : JsVal) (hv : ValidLogin req.body)
    (herr : ReturnsError B
      (.signInWithPassword (getProp req.body "email") (getProp req.body "password")) s e s1) :
    agentLogin B req s = ⟨.responded 401 (.obj [("error", .str "Invalid email or password")]),
      [.signInWithPassword (getProp req.body "email") (getProp req.body "password")], s1⟩ := by
  obtain ⟨hb, he, hp⟩ := hv
  obtain ⟨r, ⟨hr, hn⟩, rfl, ht⟩ := herr
  simp [agentLogin, hb, he, hp, hr, hn, ht]

/-- Both login handlers on a sign-in error (POST /api/customers/login,
POST /api/agent/login): when the body has truthy `email` and `password` and
the sign-in resolves with an error, both handlers answer 401; the customer
body is
`success: false, error: "Invalid email or password"`, the agent body is
`error: "Invalid email or password"` with no `success` field. -/
theorem login_error_answers_401 {σ : Type} (B : Backend σ) (req : Request) (s s1 : σ)
    (e : JsVal) (hv : ValidLogin req.body)
    (herr : ReturnsError B
      (.signInWithPassword (getProp req.body "email") (getProp req.body "password")) s e s1) :
    (customersLogin B req s).outcome = .responded 401
      (.obj [("success", .bool false), ("error", .str "Invalid email or password")]) ∧
    (agentLogin B req s).outcome = .responded 401
      (.obj [("error", .str "Invalid email or password")]) := by
  rw [customersLogin_of_error B req s s1 e hv herr, agentLogin_of_error B req s s1 e hv herr]
  exact ⟨rfl, rfl⟩

/-- Both login handlers at a concrete input: an unknown account on the
in-memory backend. -/
theorem login_error_answers_401_witness :
    ValidLogin loginBody ∧
    (customersLogin memBackend ⟨loginBody, ⟨""⟩⟩ emptyState).outcome = .responded 401
      (.obj [("success", .bool false), ("error", .str "Invalid email or password")]) ∧
    (agentLogin memBackend ⟨loginBody, ⟨""⟩⟩ emptyState).outcome = .responded 401
      (.obj [("error", .str "Invalid email or password")]) :=
  ⟨⟨rfl, rfl, rfl⟩,
    login_error_answers_401 memBackend ⟨loginBody, ⟨""⟩⟩ emptyState emptyState
      (.obj [("message", .str "Invalid login credentials")]) ⟨rfl, rfl, rfl⟩
      ⟨_, ⟨rfl, rfl⟩, rfl, rfl⟩⟩

/-- C2, the failing input: on POST /api/agent/login, a request with truthy
`email` and `password` whose sign-in resolves with an error (unknown account,
in-memory backend) is answered 401 with the body
`error: "Invalid email or password"`, which is not the body
`success: false, error: "Invalid email or password"` that the customer login
sends on the same input. -/
theorem agent_login_401_body_lacks_success :
    ValidLogin loginBody ∧
    (∃ e s1, ReturnsError memBackend
      (.signInWithPassword (getProp loginBody "email") (getProp loginBody "password"))
      emptyState e s1) ∧
    (customersLogin memBackend ⟨loginBody, ⟨""⟩⟩ emptyState).outcome = .responded 401
      (.obj [("success", .bool false), ("error", .str "Invalid email or password")]) ∧
    (agentLogin memBackend ⟨loginBody, ⟨""⟩⟩ emptyState).outcome = .responded 401
      (.obj [("error", .str "Invalid email or password")]) ∧
    (agentLogin memBackend ⟨loginBody, ⟨""⟩⟩ emptyState).outcome ≠ .responded 401
      (.obj [("success", .bool false), ("error", .str "Invalid email or password")]) := by
  refine ⟨⟨rfl, rfl, rfl⟩, ⟨_, _, _, ⟨rfl, rfl⟩, rfl, rfl⟩, rfl, rfl, ?_⟩
  intro h
  have h2 : (agentLogin memBackend ⟨loginBody, ⟨""⟩⟩ emptyState).outcome = .responded 401
      (.obj [("error", .str "Invalid email or password")]) := rfl
  rw [h2] at h
  simp at h

/-- C3 (POST /api/customers/register, POST /api/agent/register): on a valid
request, when the sign-up succeeds with identity `u` and the insert resolves
with error `e`, the handler answers 400 with body `error: e.message`, has
issued exactly the sign-up and the insert, and leaves the backend in the state
the failed insert left: nothing is issued to undo the sign-up. -/
theorem register_insert_error_leaves_identity {σ : Type} (B : Backend σ) (req : Request)
    (s s1 s2 : σ) (u e : JsVal) :
    (ValidCustomer req.body →
      SignUpSucceeds B (getProp req.body "email") (getProp req.body "password") s u s1 →
      ReturnsError B (.insert "user_register" (.arr [customerRow req.body u])) s1 e s2 →
      (customersRegister B req s).outcome
          = .responded 400 (.obj [("error", getProp e "message")]) ∧
      (customersRegister B req s).calls =
          [.signUp (getProp req.body "email") (getProp req.body "password"),
           .insert "user_register" (.arr [customerRow req.body u])] ∧
      (customersRegister B req s).state = s2) ∧
    (ValidAgent req.body →
      SignUpSucceeds B (getProp req.body "email") (getProp req.body "password") s u s1 →
      ReturnsError B (.insert "agent_register" (.arr [agentRow req.body u])) s1 e s2 →
      (agentRegister B req s).outcome
          = .responded 400 (.obj [("error", getProp e "message")]) ∧
      (agentRegister B req s).calls =
          [.signUp (getProp req.body "email") (getProp req.body "password"),
           .insert "agent_register" (.arr [agentRow req.body u])] ∧
      (agentRegister B req s).state = s2) := by
  constructor
  · rintro ⟨hb, hf, hl, hem, hp⟩ ⟨d, ⟨r, ⟨hr, hn⟩, hne, rfl⟩, hd, rfl, hu⟩
      ⟨r2, ⟨hr2, hn2⟩, rfl, ht⟩
    simp only [customerRow] at hr2
    simp [customersRegister, customerRow, hb, hf, hl, hem, hp, hr, hn, hne, hd, hu, hr2,
      hn2, ht]
  · rintro ⟨⟨hb, hf, hl, hem, hp⟩, htc⟩ ⟨d, ⟨r, ⟨hr, hn⟩, hne, rfl⟩, hd, rfl, hu⟩
      ⟨r2, ⟨hr2, hn2⟩, rfl, ht⟩
    simp only [agentRow] at hr2
    simp [agentRegister, agentRow, hb, hf, hl, hem, hp, htc, hr, hn, hne, hd, hu, hr2,
      hn2, ht]

/-- Witness of C3: with the Record Store out, registering on the in-memory
backend answers 400 with the store's message; afterwards the identity is held
by the Auth Provider and neither profile table has a row. -/
theorem register_insert_error_leaves_identity_witness :
    ((customersRegister memBackend ⟨agentBody, ⟨""⟩⟩ outageState).outcome
        = .responded 400 (.obj [("error", .str "store unavailable")]) ∧
      (customersRegister memBackend ⟨agentBody, ⟨""⟩⟩ outageState).state
        = ⟨[⟨"id-ada@example.com", "ada@example.com", "secret1"⟩], [], [],
            some "store unavailable"⟩) ∧
    ((agentRegister memBackend ⟨agentBody, ⟨""⟩⟩ outageState).outcome
        = .responded 400 (.obj [("error", .str "store unavailable")]) ∧
      (agentRegister memBackend ⟨agentBody, ⟨""⟩⟩ outageState).state
        = ⟨[⟨"id-ada@example.com", "ada@example.com", "secret1"⟩], [], [],
            some "store unavailable"⟩) :=
  have h := register_insert_error_leaves_identity memBackend ⟨agentBody, ⟨""⟩⟩ outageState
    ⟨[⟨"id-ada@example.com", "ada@example.com", "secret1"⟩], [], [], some "store unavailable"⟩
    ⟨[⟨"id-ada@example.com", "ada@example.com", "secret1"⟩], [], [], some "store unavailable"⟩
    adaUser (.obj [("message", .str "store unavailable")])
  have hv : ValidCustomer agentBody := ⟨rfl, rfl, rfl, rfl, rfl⟩
  have hs : SignUpSucceeds memBackend (getProp agentBody "email") (getProp agentBody "password")
      outageState adaUser
      ⟨[⟨"id-ada@example.com", "ada@example.com", "secret1"⟩], [], [],
        some "store unavailable"⟩ :=
    ⟨_, ⟨_, ⟨rfl, rfl⟩, rfl, rfl⟩, rfl, rfl, rfl⟩
  ⟨⟨(h.1 hv hs ⟨_, ⟨rfl, rfl⟩, rfl, rfl⟩).1, (h.1 hv hs ⟨_, ⟨rfl, rfl⟩, rfl, rfl⟩).2.2⟩,
   ⟨(h.2 ⟨hv, rfl⟩ hs ⟨_, ⟨rfl, rfl⟩, rfl, rfl⟩).1,
    (h.2 ⟨hv, rfl⟩ hs ⟨_, ⟨rfl, rfl⟩, rfl, rfl⟩).2.2⟩⟩

/-- C6 (POST /api/customers/login, POST /api/agent/login): take any two runs
of a login handler, on any backends, requests and states, in each of which the
body has truthy `email` and `password` and the sign-in resolves with an error
(`e1` in one run, `e2` in the other).  The two outcomes are equal, the status
is 401 and the body's `error` is the fixed text "Invalid email or password":
the response is the same whatever the provider's error was. -/
theorem login_error_response_independent_of_provider_error {σ τ : Type}
    (B1 : Backend σ) (B2 : Backend τ) (req1 req2 : Request) (s s1 : σ) (t t1 : τ)
    (e1 e2 : JsVal) (hv1 : ValidLogin req1.body) (hv2 : ValidLogin req2.body)
    (herr1 : ReturnsError B1
      (.signInWithPassword (getProp req1.body "email") (getProp req1.body "password")) s e1 s1)
    (herr2 : ReturnsError B2
      (.signInWithPassword (getProp req2.body "email") (getProp req2.body "password")) t e2 t1) :
    ((customersLogin B1 req1 s).outcome = (customersLogin B2 req2 t).outcome ∧
      ∃ body, (customersLogin B1 req1 s).outcome = .responded 401 body ∧
        getProp body "error" = .str "Invalid email or password") ∧
    ((agentLogin B1 req1 s).outcome = (agentLogin B2 req2 t).outcome ∧
      ∃ body, (agentLogin B1 req1 s).outcome = .responded 401 body ∧
        getProp body "error" = .str "Invalid email or password") := by
  rw [customersLogin_of_error B1 req1 s s1 e1 hv1 herr1,
    customersLogin_of_error B2 req2 t t1 e2 hv2 herr2,
    agentLogin_of_error B1 req1 s s1 e1 hv1 herr1,
    agentLogin_of_error B2 req2 t t1 e2 hv2 herr2]
  exact ⟨⟨rfl, _, rfl, rfl⟩, ⟨rfl, _, rfl, rfl⟩⟩

/-- Witness of C6: an unknown account on the in-memory backend against a
backend that reports a different error for a different request. -/
theorem login_error_response_independent_of_provider_error_witness :
    (customersLogin memBackend ⟨loginBody, ⟨""⟩⟩ emptyState).outcome
      = (customersLogin (constBackend (failure .null "wrong password")) ⟨agentBody, ⟨""⟩⟩ ()).outcome
    ∧ (agentLogin memBackend ⟨loginBody, ⟨""⟩⟩ emptyState).outcome
      = (agentLogin (constBackend (failure .null "wrong password")) ⟨agentBody, ⟨""⟩⟩ ()).outcome :=
  have h := login_error_response_independent_of_provider_error memBackend
    (constBackend (failure .null "wrong password")) ⟨loginBody, ⟨""⟩⟩ ⟨agentBody, ⟨""⟩⟩
    emptyState emptyState () ()
    (.obj [("message", .str "Invalid login credentials")])
    (.obj [("message", .str "wrong password")])
    ⟨rfl, rfl, rfl⟩ ⟨rfl, rfl, rfl⟩ ⟨_, ⟨rfl, rfl⟩, rfl, rfl⟩ ⟨_, ⟨rfl, rfl⟩, rfl, rfl⟩
  ⟨h.1.1, h.2.1⟩

/-- C7 (POST /api/customers/login, POST /api/agent/login): when the body has
truthy `email` and `password` and the sign-in resolves with no error and with
data `d` carrying a session, both handlers answer 200 with body
`success: true, user: d.user, session: d.session`, and the session in the
body is present (neither null nor undefined). -/
theorem login_success_relays_user_and_session {σ : Type} (B : Backend σ) (req : Request)
    (s s1 : σ) (d : JsVal) (hv : ValidLogin req.body)
    (hok : ReturnsData B
      (.signInWithPassword (getProp req.body "email") (getProp req.body "password")) s d s1)
    (hd : isNullish d = false) (hsess : isNullish (getProp d "session") = false) :
    (customersLogin B req s).outcome = .responded 200
      (.obj [("success", .bool true), ("user", getProp d "user"),
             ("session", getProp d "session")]) ∧
    (agentLogin B req s).outcome = .responded 200
      (.obj [("success", .bool true), ("user", getProp d "user"),
             ("session", getProp d "session")]) ∧
    isNullish (getProp (.obj [("success", .bool true), ("user", getProp d "user"),
             ("session", getProp d "session")]) "session") = false := by
  obtain ⟨hb, he, hp⟩ := hv
  obtain ⟨r, ⟨hr, hn⟩, hne, rfl⟩ := hok
  refine ⟨?_, ?_, ?_⟩
  · simp [customersLogin, hb, he, hp, hr, hn, hne, hd]
  · simp [agentLogin, hb, he, hp, hr, hn, hne, hd]
  · simpa [getProp, List.lookup] using hsess

/-- Witness of C7: the in-memory backend holding the identity of `loginBody`. -/
theorem login_success_relays_user_and_session_witness :
    (customersLogin memBackend ⟨loginBody, ⟨""⟩⟩
        ⟨[⟨"id-ada@example.com", "ada@example.com", "secret1"⟩], [], [], none⟩).outcome
      = .responded 200 (.obj [("success", .bool true), ("user", adaUser),
          ("session", .obj [("access_token", .str "token-id-ada@example.com")])]) ∧
    (agentLogin memBackend ⟨loginBody, ⟨""⟩⟩
        ⟨[⟨"id-ada@example.com", "ada@example.com", "secret1"⟩], [], [], none⟩).outcome
      = .responded 200 (.obj [("success", .bool true), ("user", adaUser),
          ("session", .obj [("access_token", .str "token-id-ada@example.com")])]) :=
  have h := login_success_relays_user_and_session memBackend ⟨loginBody, ⟨""⟩⟩
    ⟨[⟨"id-ada@example.com", "ada@example.com", "secret1"⟩], [], [], none⟩
    ⟨[⟨"id-ada@example.com", "ada@example.com", "secret1"⟩], [], [], none⟩
    (.obj [("user", adaUser),
      ("session", .obj [("access_token", .str "token-id-ada@example.com")])])
    ⟨rfl, rfl, rfl⟩ ⟨_, ⟨rfl, rfl⟩, rfl, rfl⟩ rfl rfl
  ⟨h.1, h.2.1⟩

/-- C8, as the code has it (GET /api/customers/profile/:id,
GET /api/agent/profile/:id): when the single-row select resolves with an
error, the customer lookup answers 404 with body `error: "User not found"` and
the agent lookup answers 404 with body `error: "Agent not found"`. -/
theorem profile_select_error_answers_404 {σ : Type} (B : Backend σ) (req : Request)
    (s s1 : σ) (e : JsVal) :
    (ReturnsError B (.selectSingle "user_register" "firstname, lastname, email" "user_id"
        req.params.id) s e s1 →
      (customersProfile B req s).outcome
        = .responded 404 (.obj [("error", .str "User not found")])) ∧
    (ReturnsError B (.selectSingle "agent_register" "firstname, lastname, email, phone, image"
        "user_id" req.params.id) s e s1 →
      (agentProfile B req s).outcome
        = .responded 404 (.obj [("error", .str "Agent not found")])) := by
  constructor
  · rintro ⟨r, ⟨hr, hn⟩, rfl, ht⟩
    simp [customersProfile, hr, hn, ht]
  · rintro ⟨r, ⟨hr, hn⟩, rfl, ht⟩
    simp [agentProfile, hr, hn, ht]

/-- Witness of C8 as amended: an id with no row in the empty tables. -/
theorem profile_select_error_answers_404_witness :
    (customersProfile memBackend ⟨.undefined, ⟨"nobody"⟩⟩ emptyState).outcome
      = .responded 404 (.obj [("error", .str "User not found")]) ∧
    (agentProfile memBackend ⟨.undefined, ⟨"nobody"⟩⟩ emptyState).outcome
      = .responded 404 (.obj [("error", .str "Agent not found")]) :=
  have h := profile_select_error_answers_404 memBackend ⟨.undefined, ⟨"nobody"⟩⟩ emptyState
    emptyState
    (.obj [("message", .str "JSON object requested, multiple (or no) rows returned")])
  ⟨h.1 ⟨_, ⟨rfl, rfl⟩, rfl, rfl⟩, h.2 ⟨_, ⟨rfl, rfl⟩, rfl, rfl⟩⟩

/-- Counterexample to C8 as stated: a customer lookup whose select resolves
with an error (no matching row, in-memory backend) is answered 404 with a body
other than `error: "Customer not found"`. -/
theorem customers_profile_404_says_user_not_found :
    (∃ e s1, ReturnsError memBackend (.selectSingle "user_register"
        "firstname, lastname, email" "user_id" "nobody") emptyState e s1) ∧
    (customersProfile memBackend ⟨.undefined, ⟨"nobody"⟩⟩ emptyState).outcome
      = .responded 404 (.obj [("error", .str "User not found")]) ∧
    (customersProfile memBackend ⟨.undefined, ⟨"nobody"⟩⟩ emptyState).outcome
      ≠ .responded 404 (.obj [("error", .str "Customer not found")]) := by
  refine ⟨⟨_, _, _, ⟨rfl, rfl⟩, rfl, rfl⟩, rfl, ?_⟩
  intro h
  have h2 : (customersProfile memBackend ⟨.undefined, ⟨"nobody"⟩⟩ emptyState).outcome
      = .responded 404 (.obj [("error", .str "User not found")]) := rfl
  rw [h2] at h
  simp at h

/-- A truthy value is not `undefined`. -/
theorem ne_undefined_of_truthy (v : JsVal) (h : truthy v = true) : v ≠ .undefined := by
  intro hv
  rw [hv] at h
  simp [truthy] at h

/-- A selected column the row holds reads the same in the projection. -/
theorem getProp_project (row : JsVal) (cols : List String) (c : String) (hc : c ∈ cols)
    (h : getProp row c ≠ .undefined) : getProp (project row cols) c = getProp row c := by
  induction cols with
  | nil => simp at hc
  | cons k ks ih =>
    by_cases hk : c = k
    · subst hk
      simp only [project, getProp, List.map_cons, List.lookup_cons, beq_self_eq_true]
      cases hv : getProp row c <;> simp_all [getProp]
    · have hmem : c ∈ ks := by
        rcases List.mem_cons.mp hc with h1 | h1
        · exact absurd h1 hk
        · exact h1
      have hbeq : (c == k) = false := by simpa using hk
      have := ih hmem
      simp only [project, getProp, List.map_cons, List.lookup_cons, hbeq] at this ⊢
      exact this

/-- Appending a row with a fresh key makes it the only row with that key. -/
theorem filter_hasKey_append (rows : List JsVal) (row : JsVal) (k : String)
    (hnone : rows.any (hasKey k) = false) (hrow : hasKey k row = true) :
    (rows ++ [row]).filter (hasKey k) = [row] := by
  have h1 : rows.filter (hasKey k) = [] := by
    rw [List.filter_eq_nil_iff]
    intro a ha hka
    have : rows.any (hasKey k) = true := List.any_eq_true.mpr ⟨a, ha, hka⟩
    rw [hnone] at this
    exact Bool.noConfusion this
  simp [List.filter_append, h1, List.filter_cons, hrow]

/-- Reading back the rows just written to an existing table. -/
theorem table_setTable (st : MemState) (t : String) (rows rows2 : List JsVal)
    (h : st.table t = some rows) : (st.setTable t rows2).table t = some rows2 := by
  unfold MemState.table MemState.setTable at *
  by_cases h1 : t = "user_register"
  · simp [h1]
  · by_cases h2 : t = "agent_register"
    · subst h2
      simp
    · simp [h1, h2] at h

/-- Writing a table does not change the outage flag. -/
theorem outage_setTable (st : MemState) (t : String) (rows2 : List JsVal) :
    (st.setTable t rows2).outage = st.outage := by
  unfold MemState.setTable
  split_ifs <;> rfl

/-- The in-memory backend honours the insert-then-select contract. -/
theorem memBackend_insertThenSelect : InsertThenSelect memBackend := by
  intro table columns uid row st st1 ⟨d, r, ⟨hperf, hn⟩, hne, _⟩ hkey
  simp only [memBackend, memPerform] at hperf
  cases hout : st.outage with
  | some m =>
    simp only [hout, Prod.mk.injEq, Completion.returned.injEq] at hperf
    obtain ⟨rfl, -⟩ := hperf
    simp [failure, getProp, List.lookup, truthy] at hne
  | none =>
    cases htab : st.table table with
    | none =>
      simp only [hout, htab, hkey, Prod.mk.injEq, Completion.returned.injEq] at hperf
      obtain ⟨rfl, -⟩ := hperf
      simp [failure, getProp, List.lookup, truthy] at hne
    | some rows =>
      simp only [hout, htab, hkey] at hperf
      cases hany : rows.any (hasKey uid) with
      | true =>
        simp only [hany, if_true, Prod.mk.injEq, Completion.returned.injEq] at hperf
        obtain ⟨rfl, -⟩ := hperf
        simp [failure, getProp, List.lookup, truthy] at hne
      | false =>
        simp only [hany, Prod.mk.injEq, Completion.returned.injEq] at hperf
        simp at hperf
        obtain ⟨-, rfl⟩ := hperf
        have hrow : hasKey uid row = true := by simp [hasKey, hkey]
        refine ⟨project row (columnsOf columns), st.setTable table (rows ++ [row]),
          ⟨success (project row (columnsOf columns)), ⟨?_, rfl⟩, rfl, rfl⟩, ?_⟩
        · simp [memBackend, memPerform, outage_setTable, hout,
            table_setTable st table rows _ htab, filter_hasKey_append rows row uid hany hrow]
        · intro c hc hund
          exact getProp_project row _ c hc hund
/-- C4 (register, then profile lookup, customer and agent): on a Record Store
that honours insert-then-select, when a valid registration's sign-up succeeds
with identity `u` whose id is the string `uid` and the insert resolves with no
error, the handler answers 200 with body `success: true, user: u`, and a
profile lookup of the same user class with path id `uid`, run on the state the
registration left, answers 200 with a profile whose `firstname`, `lastname`
and `email` are the submitted values. -/
theorem register_then_profile_returns_submitted {σ : Type} (B : Backend σ)
    (hB : InsertThenSelect B) (req lookup : Request) (s s1 s2 : σ) (u : JsVal)
    (hs : SignUpSucceeds B (getProp req.body "email") (getProp req.body "password") s u s1)
    (hid : getProp u "id" = .str lookup.params.id) :
    (ValidCustomer req.body →
      (∃ d, ReturnsData B (.insert "user_register" (.arr [customerRow req.body u])) s1 d s2) →
      (customersRegister B req s).outcome
          = .responded 200 (.obj [("success", .bool true), ("user", u)]) ∧
      ∃ profile, (customersProfile B lookup (customersRegister B req s).state).outcome
          = .responded 200 (.obj [("profile", profile)]) ∧
        getProp profile "firstname" = getProp req.body "firstname" ∧
        getProp profile "lastname" = getProp req.body "lastname" ∧
        getProp profile "email" = getProp req.body "email") ∧
    (ValidAgent req.body →
      (∃ d, ReturnsData B (.insert "agent_register" (.arr [agentRow req.body u])) s1 d s2) →
      (agentRegister B req s).outcome
          = .responded 200 (.obj [("success", .bool true), ("user", u)]) ∧
      ∃ profile, (agentProfile B lookup (agentRegister B req s).state).outcome
          = .responded 200 (.obj [("profile", profile)]) ∧
        getProp profile "firstname" = getProp req.body "firstname" ∧
        getProp profile "lastname" = getProp req.body "lastname" ∧
        getProp profile "email" = getProp req.body "email") := by
  obtain ⟨d, ⟨r, ⟨hr, hn⟩, hne, rfl⟩, hd, rfl, hu⟩ := hs
  constructor
  · rintro ⟨hb, hf, hl, hem, hp⟩ hins
    obtain ⟨p, s3, ⟨r3, ⟨hr3, hn3⟩, hne3, rfl⟩, hcols⟩ :=
      hB "user_register" "firstname, lastname, email" lookup.params.id _ s1 s2 hins
        (by simpa [customerRow, getProp, List.lookup] using hid)
    obtain ⟨d2, r2, ⟨hr2, hn2⟩, hne2, -⟩ := hins
    simp only [customerRow] at hr2
    have hrun : customersRegister B req s = ⟨.responded 200
        (.obj [("success", .bool true), ("user", getProp (getProp r "data") "user")]),
        [.signUp (getProp req.body "email") (getProp req.body "password"),
         .insert "user_register" (.arr [customerRow req.body (getProp (getProp r "data") "user")])],
        s2⟩ := by
      simp [customersRegister, customerRow, hb, hf, hl, hem, hp, hr, hn, hne, hd, hu, hr2,
        hn2, hne2]
    rw [hrun]
    refine ⟨rfl, getProp r3 "data", ?_, ?_, ?_, ?_⟩
    · simp [customersProfile, hr3, hn3, hne3]
    · exact hcols "firstname" (by decide) (ne_undefined_of_truthy _ hf)
    · exact hcols "lastname" (by decide) (ne_undefined_of_truthy _ hl)
    · exact hcols "email" (by decide) (ne_undefined_of_truthy _ hem)
  · rintro ⟨⟨hb, hf, hl, hem, hp⟩, htc⟩ hins
    obtain ⟨p, s3, ⟨r3, ⟨hr3, hn3⟩, hne3, rfl⟩, hcols⟩ :=
      hB "agent_register" "firstname, lastname, email, phone, image" lookup.params.id _ s1 s2
        hins (by simpa [agentRow, getProp, List.lookup] using hid)
    obtain ⟨d2, r2, ⟨hr2, hn2⟩, hne2, -⟩ := hins
    simp only [agentRow] at hr2
    have hrun : agentRegister B req s = ⟨.responded 200
        (.obj [("success", .bool true), ("user", getProp (getProp r "data") "user")]),
        [.signUp (getProp req.body "email") (getProp req.body "password"),
         .insert "agent_register" (.arr [agentRow req.body (getProp (getProp r "data") "user")])],
        s2⟩ := by
      simp [agentRegister, agentRow, hb, hf, hl, hem, hp, htc, hr, hn, hne, hd, hu, hr2,
        hn2, hne2]
    rw [hrun]
    refine ⟨rfl, getProp r3 "data", ?_, ?_, ?_, ?_⟩
    · simp [agentProfile, hr3, hn3, hne3]
    · exact hcols "firstname" (by decide) (ne_undefined_of_truthy _ hf)
    · exact hcols "lastname" (by decide) (ne_undefined_of_truthy _ hl)
    · exact hcols "email" (by decide) (ne_undefined_of_truthy _ hem)

/-- Witness of C4: registering `adaBody` as a customer and `agentBody` as an
agent on the empty in-memory backend, then looking the new id up. -/
theorem register_then_profile_returns_submitted_witness :
    InsertThenSelect memBackend ∧ ValidCustomer adaBody ∧ ValidAgent agentBody ∧
    ((customersRegister memBackend ⟨adaBody, ⟨""⟩⟩ emptyState).outcome
        = .responded 200 (.obj [("success", .bool true), ("user", adaUser)]) ∧
      ∃ profile, (customersProfile memBackend ⟨.undefined, ⟨"id-ada@example.com"⟩⟩
          (customersRegister memBackend ⟨adaBody, ⟨""⟩⟩ emptyState).state).outcome
          = .responded 200 (.obj [("profile", profile)]) ∧
        getProp profile "firstname" = .str "Ada" ∧
        getProp profile "lastname" = .str "Byron" ∧
        getProp profile "email" = .str "ada@example.com") ∧
    ((agentRegister memBackend ⟨agentBody, ⟨""⟩⟩ emptyState).outcome
        = .responded 200 (.obj [("success", .bool true), ("user", adaUser)]) ∧
      ∃ profile, (agentProfile memBackend ⟨.undefined, ⟨"id-ada@example.com"⟩⟩
          (agentRegister memBackend ⟨agentBody, ⟨""⟩⟩ emptyState).state).outcome
          = .responded 200 (.obj [("profile", profile)]) ∧
        getProp profile "firstname" = .str "Ada" ∧
        getProp profile "lastname" = .str "Byron" ∧
        getProp profile "email" = .str "ada@example.com") :=
  have hv : ValidCustomer adaBody := ⟨rfl, rfl, rfl, rfl, rfl⟩
  have hva : ValidAgent agentBody := ⟨⟨rfl, rfl, rfl, rfl, rfl⟩, rfl⟩
  ⟨memBackend_insertThenSelect, hv, hva,
    (register_then_profile_returns_submitted memBackend memBackend_insertThenSelect
      ⟨adaBody, ⟨""⟩⟩ ⟨.undefined, ⟨"id-ada@example.com"⟩⟩ emptyState
      ⟨[⟨"id-ada@example.com", "ada@example.com", "secret1"⟩], [], [], none⟩
      ⟨[⟨"id-ada@example.com", "ada@example.com", "secret1"⟩],
        [customerRow adaBody adaUser], [], none⟩
      adaUser ⟨_, ⟨_, ⟨rfl, rfl⟩, rfl, rfl⟩, rfl, rfl, rfl⟩ rfl).1 hv
      ⟨_, _, ⟨rfl, rfl⟩, rfl, rfl⟩,
    (register_then_profile_returns_submitted memBackend memBackend_insertThenSelect
      ⟨agentBody, ⟨""⟩⟩ ⟨.undefined, ⟨"id-ada@example.com"⟩⟩ emptyState
      ⟨[⟨"id-ada@example.com", "ada@example.com", "secret1"⟩], [], [], none⟩
      ⟨[⟨"id-ada@example.com", "ada@example.com", "secret1"⟩], [],
        [agentRow agentBody adaUser], none⟩
      adaUser ⟨_, ⟨_, ⟨rfl, rfl⟩, rfl, rfl⟩, rfl, rfl, rfl⟩ rfl).2 hva
      ⟨_, _, ⟨rfl, rfl⟩, rfl, rfl⟩⟩

/-- C9 (POST /api/customers/register, POST /api/agent/register): on a valid
request whose sign-up resolves with error `e`, the handler answers 400 with
body `error: e.message`, having issued the sign-up and nothing else.  On any
request and any backend, a registration issues at most two calls: none, or the
sign-up alone, or the sign-up followed by one insert into the handler's table;
in the last case the sign-up had resolved with no error. -/
theorem register_signup_error_and_call_order {σ : Type} (B : Backend σ) (req : Request)
    (s : σ) :
    (∀ e s1, ValidCustomer req.body →
      ReturnsError B (.signUp (getProp req.body "email") (getProp req.body "password")) s e s1 →
      customersRegister B req s = ⟨.responded 400 (.obj [("error", getProp e "message")]),
        [.signUp (getProp req.body "email") (getProp req.body "password")], s1⟩) ∧
    (∀ e s1, ValidAgent req.body →
      ReturnsError B (.signUp (getProp req.body "email") (getProp req.body "password")) s e s1 →
      agentRegister B req s = ⟨.responded 400 (.obj [("error", getProp e "message")]),
        [.signUp (getProp req.body "email") (getProp req.body "password")], s1⟩) ∧
    ((customersRegister B req s).calls.length ≤ 2 ∧
      ((customersRegister B req s).calls = [] ∨
       (customersRegister B req s).calls
          = [.signUp (getProp req.body "email") (getProp req.body "password")] ∨
       ∃ rows r s1, (customersRegister B req s).calls
            = [.signUp (getProp req.body "email") (getProp req.body "password"),
               .insert "user_register" rows] ∧
          Resolves B (.signUp (getProp req.body "email") (getProp req.body "password")) s r s1 ∧
          truthy (getProp r "error") = false)) ∧
    ((agentRegister B req s).calls.length ≤ 2 ∧
      ((agentRegister B req s).calls = [] ∨
       (agentRegister B req s).calls
          = [.signUp (getProp req.body "email") (getProp req.body "password")] ∨
       ∃ rows r s1, (agentRegister B req s).calls
            = [.signUp (getProp req.body "email") (getProp req.body "password"),
               .insert "agent_register" rows] ∧
          Resolves B (.signUp (getProp req.body "email") (getProp req.body "password")) s r s1 ∧
          truthy (getProp r "error") = false)) := by
  refine ⟨?_, ?_, ?_, ?_⟩
  · rintro e s1 ⟨hb, hf, hl, hem, hp⟩ ⟨r, ⟨hr, hn⟩, rfl, ht⟩
    simp [customersRegister, hb, hf, hl, hem, hp, hr, hn, ht]
  · rintro e s1 ⟨⟨hb, hf, hl, hem, hp⟩, htc⟩ ⟨r, ⟨hr, hn⟩, rfl, ht⟩
    simp [agentRegister, hb, hf, hl, hem, hp, htc, hr, hn, ht]
  · generalize hrun : customersRegister B req s = run
    simp only [customersRegister] at hrun
    repeat' split at hrun
    all_goals subst hrun
    all_goals refine ⟨by simp, ?_⟩
    all_goals first
      | exact Or.inl rfl
      | exact Or.inr (Or.inl rfl)
      | exact Or.inr (Or.inr ⟨_, _, _, rfl, ⟨by assumption, by simp_all⟩, by simp_all⟩)
  · generalize hrun : agentRegister B req s = run
    simp only [agentRegister] at hrun
    repeat' split at hrun
    all_goals subst hrun
    all_goals refine ⟨by simp, ?_⟩
    all_goals first
      | exact Or.inl rfl
      | exact Or.inr (Or.inl rfl)
      | exact Or.inr (Or.inr ⟨_, _, _, rfl, ⟨by assumption, by simp_all⟩, by simp_all⟩)

/-- Witness of C9: a password the in-memory Auth Provider rejects as too
short; the provider's message is in the body and only the sign-up was
issued. -/
theorem register_signup_error_and_call_order_witness :
    customersRegister memBackend
        ⟨.obj [("firstname", .str "Ada"), ("lastname", .str "Byron"),
               ("email", .str "ada@example.com"), ("password", .str "abc"),
               ("token_code", .str "T-1")], ⟨""⟩⟩ emptyState
      = ⟨.responded 400 (.obj [("error", .str "Password should be at least 6 characters.")]),
          [.signUp (.str "ada@example.com") (.str "abc")], emptyState⟩ ∧
    agentRegister memBackend
        ⟨.obj [("firstname", .str "Ada"), ("lastname", .str "Byron"),
               ("email", .str "ada@example.com"), ("password", .str "abc"),
               ("token_code", .str "T-1")], ⟨""⟩⟩ emptyState
      = ⟨.responded 400 (.obj [("error", .str "Password should be at least 6 characters.")]),
          [.signUp (.str "ada@example.com") (.str "abc")], emptyState⟩ :=
  have h := register_signup_error_and_call_order memBackend
    ⟨.obj [("firstname", .str "Ada"), ("lastname", .str "Byron"),
           ("email", .str "ada@example.com"), ("password", .str "abc"),
           ("token_code", .str "T-1")], ⟨""⟩⟩ emptyState
  ⟨h.1 (.obj [("message", .str "Password should be at least 6 characters.")]) emptyState
      ⟨rfl, rfl, rfl, rfl, rfl⟩ ⟨_, ⟨rfl, rfl⟩, rfl, rfl⟩,
   h.2.1 (.obj [("message", .str "Password should be at least 6 characters.")]) emptyState
      ⟨⟨rfl, rfl, rfl, rfl, rfl⟩, rfl⟩ ⟨_, ⟨rfl, rfl⟩, rfl, rfl⟩⟩

/-- C5, the failing input: when no body was parsed (`req.body` is undefined),
the destructuring that precedes the `try` of the two registration and two
login handlers throws, and the exception leaves the handler: no response is
sent and no backend call is issued, whatever the backend. -/
theorem unparsed_body_exception_escapes {σ : Type} (B : Backend σ) (params : Params)
    (s : σ) :
    customersRegister B ⟨.undefined, params⟩ s = ⟨.escaped typeError, [], s⟩ ∧
    agentRegister B ⟨.undefined, params⟩ s = ⟨.escaped typeError, [], s⟩ ∧
    customersLogin B ⟨.undefined, params⟩ s = ⟨.escaped typeError, [], s⟩ ∧
    agentLogin B ⟨.undefined, params⟩ s = ⟨.escaped typeError, [], s⟩ :=
  ⟨rfl, rfl, rfl, rfl⟩

/-- What holds of every exception raised inside a `try`: when a handler's
first backend call rejects, the handler answers 500 with its endpoint's
body. -/
theorem rejected_backend_call_answers_500 {σ : Type} (B : Backend σ) (req : Request)
    (s s1 : σ) (e : JsVal) :
    (ValidCustomer req.body →
      B.perform (.signUp (getProp req.body "email") (getProp req.body "password")) s
        = (.threw e, s1) →
      (customersRegister B req s).outcome
        = .responded 500 (.obj [("error", .str "Internal server error")])) ∧
    (ValidAgent req.body →
      B.perform (.signUp (getProp req.body "email") (getProp req.body "password")) s
        = (.threw e, s1) →
      (agentRegister B req s).outcome
        = .responded 500 (.obj [("error", .str "Internal server error")])) ∧
    (ValidLogin req.body →
      B.perform (.signInWithPassword (getProp req.body "email") (getProp req.body "password")) s
        = (.threw e, s1) →
      (customersLogin B req s).outcome = .responded 500
          (.obj [("success", .bool false), ("error", .str "Internal server error")]) ∧
      (agentLogin B req s).outcome
        = .responded 500 (.obj [("error", .str "Internal server error")])) ∧
    (B.perform (.selectSingle "user_register" "firstname, lastname, email" "user_id"
        req.params.id) s = (.threw e, s1) →
      (customersProfile B req s).outcome
        = .responded 500 (.obj [("error", .str "Server error")])) ∧
    (B.perform (.selectSingle "agent_register" "firstname, lastname, email, phone, image"
        "user_id" req.params.id) s = (.threw e, s1) →
      (agentProfile B req s).outcome
        = .responded 500 (.obj [("error", .str "Server error")])) := by
  refine ⟨?_, ?_, ?_, ?_, ?_⟩
  · rintro ⟨hb, hf, hl, hem, hp⟩ h
    simp [customersRegister, hb, hf, hl, hem, hp, h]
  · rintro ⟨⟨hb, hf, hl, hem, hp⟩, htc⟩ h
    simp [agentRegister, hb, hf, hl, hem, hp, htc, h]
  · rintro ⟨hb, hem, hp⟩ h
    simp [customersLogin, agentLogin, hb, hem, hp, h]
  · intro h
    simp [customersProfile, h]
  · intro h
    simp [agentProfile, h]

/-- What holds of the status codes: on a request whose body was parsed (is
not null or undefined), every handler sends a response, with a status from the
documented set of its endpoint; the health check and the two profile lookups
do so on every request. -/
theorem parsed_body_status_in_documented_set {σ : Type} (B : Backend σ) (req : Request)
    (s : σ) :
    root req = .responded 200 (.obj [("message", .str "API is running")]) ∧
    (∃ st body, (customersProfile B req s).outcome = .responded st body ∧
      (st = 200 ∨ st = 404 ∨ st = 500)) ∧
    (∃ st body, (agentProfile B req s).outcome = .responded st body ∧
      (st = 200 ∨ st = 404 ∨ st = 500)) ∧
    (isNullish req.body = false →
      (∃ st body, (customersRegister B req s).outcome = .responded st body ∧
        (st = 200 ∨ st = 400 ∨ st = 500)) ∧
      (∃ st body, (agentRegister B req s).outcome = .responded st body ∧
        (st = 200 ∨ st = 400 ∨ st = 500)) ∧
      (∃ st body, (customersLogin B req s).outcome = .responded st body ∧
        (st = 200 ∨ st = 400 ∨ st = 401 ∨ st = 500)) ∧
      (∃ st body, (agentLogin B req s).outcome = .responded st body ∧
        (st = 200 ∨ st = 400 ∨ st = 401 ∨ st = 500))) := by
  refine ⟨rfl, ?_, ?_, fun hb => ⟨?_, ?_, ?_, ?_⟩⟩
  · simp only [customersProfile]
    repeat' split
    all_goals exact ⟨_, _, rfl, by simp⟩
  · simp only [agentProfile]
    repeat' split
    all_goals exact ⟨_, _, rfl, by simp⟩
  · simp only [customersRegister, hb, Bool.false_eq_true, if_false]
    repeat' split
    all_goals exact ⟨_, _, rfl, by simp⟩
  · simp only [agentRegister, hb, Bool.false_eq_true, if_false]
    repeat' split
    all_goals exact ⟨_, _, rfl, by simp⟩
  · simp only [customersLogin, hb, Bool.false_eq_true, if_false]
    repeat' split
    all_goals exact ⟨_, _, rfl, by simp⟩
  · simp only [agentLogin, hb, Bool.false_eq_true, if_false]
    repeat' split
    all_goals exact ⟨_, _, rfl, by simp⟩

/-- C1, the failing input: a registration request with no parsed body
(`req.body` undefined) is missing every required field, yet neither
registration handler answers it with 400 `error: "All fields are required."`:
the destructuring before the presence check throws and the exception leaves
the handler.  The client receives whatever the framework makes of the
exception: 500 under Express 5, nothing under Express 4. -/
theorem unparsed_body_registration_not_answered_400 {σ : Type} (B : Backend σ)
    (params : Params) (s : σ) :
    (truthy (getProp .undefined "firstname") = false ∧
      truthy (getProp .undefined "lastname") = false ∧
      truthy (getProp .undefined "email") = false ∧
      truthy (getProp .undefined "password") = false ∧
      truthy (getProp .undefined "token_code") = false) ∧
    (customersRegister B ⟨.undefined, params⟩ s).outcome
      ≠ .responded 400 (.obj [("error", .str "All fields are required.")]) ∧
    (agentRegister B ⟨.undefined, params⟩ s).outcome
      ≠ .responded 400 (.obj [("error", .str "All fields are required.")]) ∧
    endpointStatus express5 (customersRegister B ⟨.undefined, params⟩ s).outcome = some 500 ∧
    endpointStatus express5 (agentRegister B ⟨.undefined, params⟩ s).outcome = some 500 ∧
    endpointStatus express4 (customersRegister B ⟨.undefined, params⟩ s).outcome = none ∧
    endpointStatus express4 (agentRegister B ⟨.undefined, params⟩ s).outcome = none := by
  refine ⟨⟨rfl, rfl, rfl, rfl, rfl⟩, ?_, ?_, rfl, rfl, rfl, rfl⟩
  · intro h
    have h2 : (customersRegister B ⟨.undefined, params⟩ s).outcome = .escaped typeError := rfl
    rw [h2] at h
    exact Outcome.noConfusion h
  · intro h
    have h2 : (agentRegister B ⟨.undefined, params⟩ s).outcome = .escaped typeError := rfl
    rw [h2] at h
    exact Outcome.noConfusion h

/-- C10 (all seven endpoints): on a framework that answers the exception of a
failed destructuring with 500, as Express 5 does, every request gets a status
from the documented set of its endpoint, whatever the backend does: GET / is
answered 200 with body `message: "API is running"`, the two register
endpoints with 200, 400 or 500, the two login endpoints with 200, 400, 401 or
500, and the two profile endpoints with 200, 404 or 500. -/
theorem endpoint_status_in_documented_set {σ : Type} (F : Framework)
    (hF : F.onEscape typeError = some 500) (B : Backend σ) (req : Request) (s : σ) :
    (root req = .responded 200 (.obj [("message", .str "API is running")]) ∧
      endpointStatus F (root req) = some 200) ∧
    (endpointStatus F (customersRegister B req s).outcome = some 200 ∨
      endpointStatus F (customersRegister B req s).outcome = some 400 ∨
      endpointStatus F (customersRegister B req s).outcome = some 500) ∧
    (endpointStatus F (agentRegister B req s).outcome = some 200 ∨
      endpointStatus F (agentRegister B req s).outcome = some 400 ∨
      endpointStatus F (agentRegister B req s).outcome = some 500) ∧
    (endpointStatus F (customersLogin B req s).outcome = some 200 ∨
      endpointStatus F (customersLogin B req s).outcome = some 400 ∨
      endpointStatus F (customersLogin B req s).outcome = some 401 ∨
      endpointStatus F (customersLogin B req s).outcome = some 500) ∧
    (endpointStatus F (agentLogin B req s).outcome = some 200 ∨
      endpointStatus F (agentLogin B req s).outcome = some 400 ∨
      endpointStatus F (agentLogin B req s).outcome = some 401 ∨
      endpointStatus F (agentLogin B req s).outcome = some 500) ∧
    (endpointStatus F (customersProfile B req s).outcome = some 200 ∨
      endpointStatus F (customersProfile B req s).outcome = some 404 ∨
      endpointStatus F (customersProfile B req s).outcome = some 500) ∧
    (endpointStatus F (agentProfile B req s).outcome = some 200 ∨
      endpointStatus F (agentProfile B req s).outcome = some 404 ∨
      endpointStatus F (agentProfile B req s).outcome = some 500) := by
  refine ⟨⟨rfl, rfl⟩, ?_, ?_, ?_, ?_, ?_, ?_⟩
  · generalize hrun : customersRegister B req s = run
    simp only [customersRegister] at hrun
    repeat' split at hrun
    all_goals subst hrun
    all_goals simp [endpointStatus, hF]
  · generalize hrun : agentRegister B req s = run
    simp only [agentRegister] at hrun
    repeat' split at hrun
    all_goals subst hrun
    all_goals simp [endpointStatus, hF]
  · generalize hrun : customersLogin B req s = run
    simp only [customersLogin] at hrun
    repeat' split at hrun
    all_goals subst hrun
    all_goals simp [endpointStatus, hF]
  · generalize hrun : agentLogin B req s = run
    simp only [agentLogin] at hrun
    repeat' split at hrun
    all_goals subst hrun
    all_goals simp [endpointStatus, hF]
  · generalize hrun : customersProfile B req s = run
    simp only [customersProfile] at hrun
    repeat' split at hrun
    all_goals subst hrun
    all_goals simp [endpointStatus]
  · generalize hrun : agentProfile B req s = run
    simp only [agentProfile] at hrun
    repeat' split at hrun
    all_goals subst hrun
    all_goals simp [endpointStatus]

/-- Witness of C10: under Express 5, a login request with no parsed body is
answered 500, a login of an unknown account 401, and a lookup of an unknown id
404, each in the documented set. -/
theorem endpoint_status_in_documented_set_witness :
    express5.onEscape typeError = some 500 ∧
    endpointStatus express5 (customersLogin memBackend ⟨.undefined, ⟨""⟩⟩ emptyState).outcome
      = some 500 ∧
    endpointStatus express5 (agentLogin memBackend ⟨loginBody, ⟨""⟩⟩ emptyState).outcome
      = some 401 ∧
    endpointStatus express5 (customersProfile memBackend ⟨.undefined, ⟨"nobody"⟩⟩
      emptyState).outcome = some 404 ∧
    (endpointStatus express5 (customersLogin memBackend ⟨.undefined, ⟨""⟩⟩ emptyState).outcome
        = some 200 ∨
      endpointStatus express5 (customersLogin memBackend ⟨.undefined, ⟨""⟩⟩ emptyState).outcome
        = some 400 ∨
      endpointStatus express5 (customersLogin memBackend ⟨.undefined, ⟨""⟩⟩ emptyState).outcome
        = some 401 ∨
      endpointStatus express5 (customersLogin memBackend ⟨.undefined, ⟨""⟩⟩ emptyState).outcome
        = some 500) :=
  ⟨rfl, rfl, rfl, rfl,
    (endpoint_status_in_documented_set express5 rfl memBackend ⟨.undefined, ⟨""⟩⟩
      emptyState).2.2.2.1⟩

/-- Every other exception raised inside the `try` of a registration: a
sign-up result that cannot be destructured, a sign-up result without error
whose `data` or `data.user` is null or undefined, an insert that rejects, and
an insert result that cannot be destructured are all answered 500 with body
`error: "Internal server error"`. -/
theorem register_exception_inside_try_answers_500 {σ : Type} (B : Backend σ) (req : Request)
    (s s1 s2 : σ) (r u e : JsVal) :
    (ValidCustomer req.body →
      B.perform (.signUp (getProp req.body "email") (getProp req.body "password")) s
        = (.returned r, s1) →
      (isNullish r = true ∨
        (isNullish r = false ∧ truthy (getProp r "error") = false ∧
          (isNullish (getProp r "data") = true ∨
            isNullish (getProp (getProp r "data") "user") = true))) →
      (customersRegister B req s).outcome
        = .responded 500 (.obj [("error", .str "Internal server error")])) ∧
    (ValidAgent req.body →
      B.perform (.signUp (getProp req.body "email") (getProp req.body "password")) s
        = (.returned r, s1) →
      (isNullish r = true ∨
        (isNullish r = false ∧ truthy (getProp r "error") = false ∧
          (isNullish (getProp r "data") = true ∨
            isNullish (getProp (getProp r "data") "user") = true))) →
      (agentRegister B req s).outcome
        = .responded 500 (.obj [("error", .str "Internal server error")])) ∧
    (ValidCustomer req.body →
      SignUpSucceeds B (getProp req.body "email") (getProp req.body "password") s u s1 →
      (B.perform (.insert "user_register" (.arr [customerRow req.body u])) s1 = (.threw e, s2) ∨
        (B.perform (.insert "user_register" (.arr [customerRow req.body u])) s1
            = (.returned r, s2) ∧ isNullish r = true)) →
      (customersRegister B req s).outcome
        = .responded 500 (.obj [("error", .str "Internal server error")])) ∧
    (ValidAgent req.body →
      SignUpSucceeds B (getProp req.body "email") (getProp req.body "password") s u s1 →
      (B.perform (.insert "agent_register" (.arr [agentRow req.body u])) s1 = (.threw e, s2) ∨
        (B.perform (.insert "agent_register" (.arr [agentRow req.body u])) s1
            = (.returned r, s2) ∧ isNullish r = true)) →
      (agentRegister B req s).outcome
        = .responded 500 (.obj [("error", .str "Internal server error")])) := by
  refine ⟨?_, ?_, ?_, ?_⟩
  · rintro ⟨hb, hf, hl, hem, hp⟩ hr (hn | ⟨hn, hne, hd | hu⟩)
    · simp [customersRegister, hb, hf, hl, hem, hp, hr, hn]
    · simp [customersRegister, hb, hf, hl, hem, hp, hr, hn, hne, hd]
    · cases hd : isNullish (getProp r "data") <;>
        simp [customersRegister, hb, hf, hl, hem, hp, hr, hn, hne, hd, hu]
  · rintro ⟨⟨hb, hf, hl, hem, hp⟩, htc⟩ hr (hn | ⟨hn, hne, hd | hu⟩)
    · simp [agentRegister, hb, hf, hl, hem, hp, htc, hr, hn]
    · simp [agentRegister, hb, hf, hl, hem, hp, htc, hr, hn, hne, hd]
    · cases hd : isNullish (getProp r "data") <;>
        simp [agentRegister, hb, hf, hl, hem, hp, htc, hr, hn, hne, hd, hu]
  · rintro ⟨hb, hf, hl, hem, hp⟩ ⟨d, ⟨r1, ⟨hr1, hn1⟩, hne, rfl⟩, hd, rfl, hu⟩ hins
    simp only [customerRow] at hins
    rcases hins with h | ⟨h, hn⟩
    · simp [customersRegister, hb, hf, hl, hem, hp, hr1, hn1, hne, hd, hu, h]
    · simp [customersRegister, hb, hf, hl, hem, hp, hr1, hn1, hne, hd, hu, h, hn]
  · rintro ⟨⟨hb, hf, hl, hem, hp⟩, htc⟩ ⟨d, ⟨r1, ⟨hr1, hn1⟩, hne, rfl⟩, hd, rfl, hu⟩ hins
    simp only [agentRow] at hins
    rcases hins with h | ⟨h, hn⟩
    · simp [agentRegister, hb, hf, hl, hem, hp, htc, hr1, hn1, hne, hd, hu, h]
    · simp [agentRegister, hb, hf, hl, hem, hp, htc, hr1, hn1, hne, hd, hu, h, hn]

/-- Every other exception raised inside the `try` of a login or a profile
lookup: a result that cannot be destructured and a sign-in result without
error whose `data` is null or undefined are answered 500 with the endpoint's
body. -/
theorem login_profile_exception_inside_try_answers_500 {σ : Type} (B : Backend σ)
    (req : Request) (s s1 : σ) (r : JsVal) :
    (ValidLogin req.body →
      B.perform (.signInWithPassword (getProp req.body "email") (getProp req.body "password")) s
        = (.returned r, s1) →
      (isNullish r = true ∨
        (isNullish r = false ∧ truthy (getProp r "error") = false ∧
          isNullish (getProp r "data") = true)) →
      (customersLogin B req s).outcome = .responded 500
          (.obj [("success", .bool false), ("error", .str "Internal server error")]) ∧
      (agentLogin B req s).outcome
        = .responded 500 (.obj [("error", .str "Internal server error")])) ∧
    (B.perform (.selectSingle "user_register" "firstname, lastname, email" "user_id"
        req.params.id) s = (.returned r, s1) → isNullish r = true →
      (customersProfile B req s).outcome
        = .responded 500 (.obj [("error", .str "Server error")])) ∧
    (B.perform (.selectSingle "agent_register" "firstname, lastname, email, phone, image"
        "user_id" req.params.id) s = (.returned r, s1) → isNullish r = true →
      (agentProfile B req s).outcome
        = .responded 500 (.obj [("error", .str "Server error")])) := by
  refine ⟨?_, ?_, ?_⟩
  · rintro ⟨hb, hem, hp⟩ hr (hn | ⟨hn, hne, hd⟩)
    · simp [customersLogin, agentLogin, hb, hem, hp, hr, hn]
    · simp [customersLogin, agentLogin, hb, hem, hp, hr, hn, hne, hd]
  · intro hr hn
    simp [customersProfile, hr, hn]
  · intro hr hn
    simp [agentProfile, hr, hn]

end Server
